import Mathlib

/-!
Shallow embedding of `main.py` of the vibebus repository (class `VibebusChat`),
together with theorems settling the specification claims about it.

Modelling conventions:
* Python dictionaries decoded from JSON are embedded as structures whose fields
  are `Option`-valued: `none` models an absent key, matching `dict.get`.
  Numeric leaf values that are only ever rendered into output text
  (temperatures, coordinates) are carried as their rendered strings, since no
  claim depends on Python float formatting.  Departure offsets and service days,
  which the code computes with, are carried as `Int`.
* All network calls (the OpenRouter LLM endpoint, Open-Meteo, digitransit) and
  the wall clock are oracles supplied in a `World`; an `Except.error e` from an
  oracle models a raised exception whose `str` is `e`.
* String handling is modelled at the ASCII level over `String.data`
  (`str.strip`, `str.isdigit`, `int(...)`).
-/

namespace Vibebus

/-! ## Python string primitives (`str.strip`, `str.isdigit`, `int`) -/

/-- Characters treated as whitespace by Python's `str.strip()` (ASCII range). -/
def pyIsSpaceChar (c : Char) : Bool :=
  c = ' ' || c = '\t' || c = '\n' || c = '\x0d' || c = '\x0b' || c = '\x0c'

/-- ASCII decimal digit, as recognised by Python's `str.isdigit()`. -/
def pyIsDigitChar (c : Char) : Bool :=
  '0' ≤ c && c ≤ '9'

/-- Strip whitespace from both ends of a character list. -/
def pyStripList (l : List Char) : List Char :=
  ((l.dropWhile pyIsSpaceChar).reverse.dropWhile pyIsSpaceChar).reverse

/-- Python `s.strip()` (ASCII model). -/
def pyStrip (s : String) : String :=
  String.mk (pyStripList s.data)

/-- Python `s.isdigit()` (ASCII model): non-empty and all decimal digits. -/
def pyIsDigit (s : String) : Bool :=
  !s.data.isEmpty && s.data.all pyIsDigitChar

/-- Numeric value of a list of decimal digits, most significant first. -/
def digitsVal (l : List Char) : Nat :=
  l.foldl (fun a c => 10 * a + (c.toNat - 48)) 0

/-- Value of `int(s)` when `s.isdigit()` holds. -/
def digitsToNat (s : String) : Nat :=
  digitsVal s.data

/-- Body of `pyParseInt` on the stripped character list: optional sign followed
by digits. -/
def pyParseIntList : List Char → Option Int
  | [] => none
  | c :: rest =>
    if c = '-' then
      if !rest.isEmpty && rest.all pyIsDigitChar then some (-(digitsVal rest : Int)) else none
    else if c = '+' then
      if !rest.isEmpty && rest.all pyIsDigitChar then some ((digitsVal rest : Int)) else none
    else if (c :: rest).all pyIsDigitChar then some ((digitsVal (c :: rest) : Int)) else none

/-- Python `int(s)` on an already available string, `none` modelling a raised
`ValueError`.  (`int` strips whitespace itself, hence the leading `pyStrip`.) -/
def pyParseInt (s : String) : Option Int :=
  pyParseIntList (pyStrip s).data

/-- Python truthiness of an optional string (`not x` for `x : str | None`):
true exactly on `None` and the empty string. -/
def pyFalsy : Option String → Bool
  | none => true
  | some t => t = ""

/-! ## Rendering an epoch instant as `HH:MM` in Europe/Helsinki

`format_bus_response` renders `datetime.fromtimestamp(t, utc).astimezone(ZoneInfo
("Europe/Helsinki")).strftime("%H:%M")`.  Europe/Helsinki is EET (UTC+2) with the
EU daylight-saving rule: UTC+3 from 01:00 UTC on the last Sunday of March until
01:00 UTC on the last Sunday of October. -/

/-- Proleptic Gregorian year/month/day of a day count since 1970-01-01
(Howard Hinnant's `civil_from_days`). -/
def civilFromDays (z : Int) : Int × Nat × Nat :=
  let days := z + 719468
  let era : Int := Int.fdiv days 146097
  let doe : Nat := (days - era * 146097).toNat
  let yoe : Nat := (doe - doe / 1460 + doe / 36524 - doe / 146096) / 365
  let y : Int := (yoe : Int) + era * 400
  let doy : Nat := doe - (365 * yoe + yoe / 4 - yoe / 100)
  let mp : Nat := (5 * doy + 2) / 153
  let d : Nat := doy - (153 * mp + 2) / 5 + 1
  let m : Nat := if mp < 10 then mp + 3 else mp - 9
  (if m ≤ 2 then y + 1 else y, m, d)

/-- Day count since 1970-01-01 of a Gregorian date (Hinnant's `days_from_civil`). -/
def daysFromCivil (y : Int) (m d : Nat) : Int :=
  let y2 : Int := if m ≤ 2 then y - 1 else y
  let era : Int := Int.fdiv y2 400
  let yoe : Nat := (y2 - era * 400).toNat
  let mp : Nat := if 2 < m then m - 3 else m + 9
  let doy : Nat := (153 * mp + 2) / 5 + d - 1
  let doe : Nat := yoe * 365 + yoe / 4 - yoe / 100 + doy
  era * 146097 + (doe : Int) - 719468

/-- Day count of the last Sunday on or before day `z` (1970-01-01 was a Thursday). -/
def lastSundayOnOrBefore (z : Int) : Int :=
  z - Int.emod (z + 4) 7

/-- UTC offset (seconds) of Europe/Helsinki at epoch second `t` (EU DST rule). -/
def helsinkiUtcOffset (t : Int) : Int :=
  let day := Int.fdiv t 86400
  let y := (civilFromDays day).1
  let dstStart := lastSundayOnOrBefore (daysFromCivil y 3 31) * 86400 + 3600
  let dstEnd := lastSundayOnOrBefore (daysFromCivil y 10 31) * 86400 + 3600
  if dstStart ≤ t ∧ t < dstEnd then 10800 else 7200

/-- Render a natural number as at least two decimal digits. -/
def pad2 (n : Nat) : String :=
  if n < 10 then "0" ++ toString n else toString n

/-- Epoch second rendered as `HH:MM` local Europe/Helsinki time
(the `strftime("%H:%M")` of the code). -/
def epochToHelsinkiHHMM (t : Int) : String :=
  let localSecs := t + helsinkiUtcOffset t
  let sod := (Int.emod localSecs 86400).toNat
  pad2 (sod / 3600) ++ ":" ++ pad2 (sod % 3600 / 60)

/-! ## Data model: messages, tool calls, tool payloads -/

/-- Decoded `json.loads(tool_call.function.arguments)`: only the two parameter
names declared in the tool registry occur. -/
structure ToolArgs where
  stop_id : Option String := none
  name : Option String := none
deriving DecidableEq

/-- One model-issued tool invocation request (`tool_call.id`,
`tool_call.function.name`, decoded arguments). -/
structure ToolCall where
  id : String := ""
  fn : String := ""
  args : ToolArgs := {}
deriving DecidableEq

/-- One entry of `self.conversation`. -/
structure Message where
  role : String
  content : Option String := none
  tool_call_id : Option String := none
  tool_calls : List ToolCall := []
deriving DecidableEq

/-- The message object of one chat-completion choice
(`completion.choices[0].message`). -/
structure LLMMessage where
  content : Option String := none
  tool_calls : List ToolCall := []
deriving DecidableEq

/-- Weather payload, `current` object. -/
structure CurrentWeather where
  temperature_2m : Option String := none
  wind_speed_10m : Option String := none
  precipitation : Option String := none
deriving DecidableEq

/-- Weather payload, `daily` object. -/
structure DailyWeather where
  temperature_2m_max : Option (List String) := none
  temperature_2m_min : Option (List String) := none
deriving DecidableEq

/-- Result dict of `get_weather`: either `{"error": ...}` or the Open-Meteo
payload. -/
structure WeatherData where
  error : Option String := none
  current : Option CurrentWeather := none
  daily : Option DailyWeather := none
deriving DecidableEq

/-- Result dict of `get_current_time`. -/
structure TimeData where
  error : Option String := none
  current_time : Option String := none
  current_date : Option String := none
  weekday : Option String := none
  timezone : Option String := none
deriving DecidableEq

/-- `trip.route` of a stop-time record. -/
structure Route where
  shortName : Option String := none
deriving DecidableEq

/-- One record of `stoptimesWithoutPatterns`.  `realtime` absent decodes as
falsy, hence plain `Bool`. -/
structure Departure where
  scheduledDeparture : Option Int := none
  realtimeDeparture : Option Int := none
  realtime : Bool := false
  serviceDay : Option Int := none
  headsign : Option String := none
  route : Option Route := none
deriving DecidableEq

/-- `data.stop` of the departures payload. -/
structure BusStop where
  name : Option String := none
  stoptimesWithoutPatterns : List Departure := []
deriving DecidableEq

/-- Result dict of `get_next_departures`: either `{"error": ...}` or the
GraphQL payload (`data.stop`). -/
structure BusData where
  error : Option String := none
  stop : Option BusStop := none
deriving DecidableEq

/-- One stop record of the stop-search payload; `lat`/`lon` carried as their
rendered text. -/
structure Stop where
  gtfsId : Option String := none
  name : Option String := none
  code : Option String := none
  lat : Option String := none
  lon : Option String := none
deriving DecidableEq

/-- Result dict of `get_stops_by_name`: either `{"error": ...}` or the GraphQL
payload; `data.get('stops', [])` makes an absent list empty. -/
structure StopsData where
  error : Option String := none
  stops : List Stop := []
deriving DecidableEq

/-! ## External collaborators: network and clock oracles -/

/-- A transport-level request actually issued over the network. -/
inductive NetCall where
  | weatherGet : NetCall
  | busPost (stop_id : String) : NetCall
  | stopsPost (searched : String) : NetCall
deriving DecidableEq

/-- Outcome of the HTTP transport for each endpoint; `Except.error e` models a
raised `requests.exceptions.RequestException` with `str(e) = e`. -/
structure Net where
  weather : Except String WeatherData
  bus : String → Except String BusData
  stops : String → Except String StopsData

/-- The `strftime` outputs of `datetime.datetime.now(helsinki_tz)`. -/
structure Clock where
  hms : String := ""
  date : String := ""
  weekday : String := ""

/-- Everything ambient to one turn: the LLM endpoint (a function of the message
log sent to it), the `DIGITRANSIT_API_KEY` environment variable, the network,
and the clock. -/
structure World where
  llm : List Message → Except String LLMMessage
  digitransit_api_key : Option String := none
  net : Net
  clock : Clock := {}

/-! ## Tool executors (`get_weather`, `get_next_departures`,
`get_current_time`, `get_stops_by_name`) -/

/-- `get_weather`: queries the fixed-location forecast endpoint; a transport
exception becomes `{"error": f"Weather API error: {e}"}`. -/
def get_weather (net : Net) : WeatherData × List NetCall :=
  match net.weather with
  | .ok d => (d, [NetCall.weatherGet])
  | .error e => ({ error := some ("Weather API error: " ++ e) }, [NetCall.weatherGet])

/-- The fallback stop of `get_next_departures`. -/
def defaultStopId : String := "HSL:1434183"

/-- Error message returned by the transit executors when the credential is
missing from the environment. -/
def missingKeyMsg : String := "DIGITRANSIT_API_KEY not found in environment variables"

/-- `get_next_departures(stop_id)`: substitutes the default stop for a falsy id,
then requires `DIGITRANSIT_API_KEY` before touching the network. -/
def get_next_departures (apiKey : Option String) (net : Net) (stop_id : Option String) :
    BusData × List NetCall :=
  let sid := if pyFalsy stop_id then defaultStopId else stop_id.getD ""
  if pyFalsy apiKey then
    ({ error := some missingKeyMsg }, [])
  else
    match net.bus sid with
    | .ok d => (d, [NetCall.busPost sid])
    | .error e => ({ error := some ("Bus API error: " ++ e) }, [NetCall.busPost sid])

/-- `get_stops_by_name(name)`: requires `DIGITRANSIT_API_KEY` before touching
the network. -/
def get_stops_by_name (apiKey : Option String) (net : Net) (nm : String) :
    StopsData × List NetCall :=
  if pyFalsy apiKey then
    ({ error := some missingKeyMsg }, [])
  else
    match net.stops nm with
    | .ok d => (d, [NetCall.stopsPost nm])
    | .error e => ({ error := some ("Stops API error: " ++ e) }, [NetCall.stopsPost nm])

/-- `get_current_time`: wall clock in the fixed Helsinki timezone. -/
def get_current_time (clk : Clock) : TimeData :=
  { current_time := some clk.hms
    current_date := some clk.date
    weekday := some clk.weekday
    timezone := some "Europe/Helsinki" }

/-! ## Response formatters -/

/-- `format_weather_response`. -/
def format_weather_response (weather_data : WeatherData) : String :=
  match weather_data.error with
  | some e => "Sorry, I couldn\x27t get the weather information: " ++ e
  | none =>
    let current := weather_data.current.getD {}
    let temp := current.temperature_2m.getD "N/A"
    let wind := current.wind_speed_10m.getD "N/A"
    let precipitation := current.precipitation.getD "N/A"
    let response := "🌤️ Current Weather in Helsinki:\n"
      ++ "Temperature: " ++ temp ++ "°C\n"
      ++ "Wind Speed: " ++ wind ++ " m/s\n"
      ++ "Precipitation: " ++ precipitation ++ " mm\n"
    -- `if daily and 'temperature_2m_max' in daily and daily['temperature_2m_max']:`
    match weather_data.daily with
    | none => response
    | some daily =>
      match daily.temperature_2m_max with
      | some (maxTemp :: _) =>
        -- `daily['temperature_2m_min']` raises `KeyError` when absent, caught below
        (match daily.temperature_2m_min with
         | some minList =>
           let minTemp := match minList with | [] => "N/A" | m :: _ => m
           response ++ "Today\x27s Range: " ++ minTemp ++ "°C - " ++ maxTemp ++ "°C"
         | none => "Sorry, I couldn\x27t parse the weather data properly: \x27temperature_2m_min\x27")
      | _ => response

/-- Sort key of `sorted(departures, key=lambda x: x.get('realtimeDeparture',
x.get('scheduledDeparture', 0)))`. -/
def busSortKey (d : Departure) : Int :=
  d.realtimeDeparture.getD (d.scheduledDeparture.getD 0)

/-- Offset rendered for a record:
`departure.get('realtimeDeparture') or departure.get('scheduledDeparture', 0)`.
Python's `or` falls back on a falsy left operand, i.e. on `None` and on `0`. -/
def busChosenOffset (d : Departure) : Int :=
  match d.realtimeDeparture with
  | some v => if v = 0 then d.scheduledDeparture.getD 0 else v
  | none => d.scheduledDeparture.getD 0

/-- Insert a departure after every already-placed record whose key is `≤` its
key (so later input records land after earlier ones on ties). -/
def insertDeparture (x : Departure) : List Departure → List Departure
  | [] => [x]
  | y :: ys =>
    if busSortKey y ≤ busSortKey x then y :: insertDeparture x ys else x :: y :: ys

/-- The sort of `sorted(departures, key=...)`.  Python's `sorted` is stable,
and a stable sort is uniquely determined by its comparison, so this stable
insertion sort produces the same list. -/
def sortDepartures (l : List Departure) : List Departure :=
  l.foldl (fun acc x => insertDeparture x acc) []

/-- One line of the departures listing. -/
def renderDepartureLine (d : Departure) : String :=
  let bus_number := (d.route.bind Route.shortName).getD "N/A"
  let headsign := d.headsign.getD "Unknown destination"
  let actual_time := d.serviceDay.getD 0 + busChosenOffset d
  let time_str := epochToHelsinkiHHMM actual_time
  let realtime_indicator := if d.realtime then "🟢" else "🔵"
  realtime_indicator ++ " Bus " ++ bus_number ++ " → " ++ headsign ++ " at " ++ time_str ++ "\n"

/-- Header of the departures listing. -/
def busHeader (stop_name : String) : String :=
  "🚌 Next Departures from " ++ stop_name ++ ":\n\n"

/-- `format_bus_response`. -/
def format_bus_response (bus_data : BusData) (stop_id : String) : String :=
  match bus_data.error with
  | some e => "Sorry, I couldn\x27t get the bus departure information: " ++ e
  | none =>
    let stop_name := (bus_data.stop.bind BusStop.name).getD ("Stop " ++ stop_id)
    let departures := (bus_data.stop.map BusStop.stoptimesWithoutPatterns).getD []
    if departures.isEmpty then
      "🚌 No upcoming departures found for " ++ stop_name
    else
      let sorted_departures := (sortDepartures departures).take 5
      pyStrip (sorted_departures.foldl (fun acc d => acc ++ renderDepartureLine d)
        (busHeader stop_name))

/-- `format_time_response`. -/
def format_time_response (time_data : TimeData) : String :=
  match time_data.error with
  | some e => "Sorry, I couldn\x27t get the current time: " ++ e
  | none =>
    "🕐 Current Time in Helsinki:\n"
      ++ "Time: " ++ time_data.current_time.getD "N/A" ++ "\n"
      ++ "Date: " ++ time_data.current_date.getD "N/A" ++ "\n"
      ++ "Day: " ++ time_data.weekday.getD "N/A" ++ "\n"
      ++ "Timezone: " ++ time_data.timezone.getD "N/A"

/-- One line `f"{i}. {name} {code} (ID: {gtfs_id})\n"` of the numbered stop list. -/
def stopLine (i : Nat) (s : Stop) : String :=
  toString i ++ ". " ++ s.name.getD "Unknown" ++ " " ++ s.code.getD "N/A"
    ++ " (ID: " ++ s.gtfsId.getD "N/A" ++ ")\n"

/-- The loop `for i, stop in enumerate(stops, 1): ...`, numbering from `i`. -/
def stopsLines : Nat → List Stop → String
  | _, [] => ""
  | i, s :: rest => stopLine i s ++ stopsLines (i + 1) rest

/-- Detailed single-record view of `format_stops_response`. -/
def stopDetail (s : Stop) : String :=
  "🚏 Found: " ++ s.name.getD "Unknown"
    ++ "\nID: " ++ s.gtfsId.getD "N/A"
    ++ "\nCode: " ++ s.code.getD "N/A"
    ++ "\nLocation: " ++ s.lat.getD "N/A" ++ ", " ++ s.lon.getD "N/A"

/-- `format_stops_response`.  The Python method mutates
`self.last_stop_search_results`; here the current value comes in as `pending`
and the (possibly updated) value is the second component of the result. -/
def format_stops_response (stops_data : StopsData) (search_name : String)
    (pending : List Stop) : String × List Stop :=
  match stops_data.error with
  | some e => ("Sorry, I couldn\x27t search for stops: " ++ e, pending)
  | none =>
    match stops_data.stops with
    | [] => ("🚏 No stops found matching \x27" ++ search_name ++ "\x27", pending)
    | s :: rest =>
      -- `self.last_stop_search_results = stops` runs for every non-empty result
      let stops := s :: rest
      if 1 < stops.length then
        (pyStrip ("🚏 Found " ++ toString stops.length ++ " stops matching \x27"
          ++ search_name ++ "\x27. Which one do you mean?\n\n" ++ stopsLines 1 stops), stops)
      else
        (stopDetail s, stops)

/-! ## Conversation state, retention trimming, selection lookup -/

/-- Session state of one `VibebusChat` instance: the message log, the configured
maximum log length, and the pending disambiguation candidates. -/
structure ChatState where
  conversation : List Message
  conversationMaxLength : Nat := 100
  last_stop_search_results : List Stop := []

/-- The system prompt appended by `__init__` (whitespace of the Python
triple-quoted literal condensed; no claim depends on its text). -/
def systemPrompt : String :=
  "You are a helpful assistant for Helsinki with access to local information. "
    ++ "You can help users with weather, bus departures, current time, and finding bus stops."

/-- Fresh session state: the log holds exactly the system message. -/
def initState (maxLen : Nat := 100) : ChatState :=
  { conversation := [{ role := "system", content := some systemPrompt }]
    conversationMaxLength := maxLen }

/-- Python `l[j:]` for a possibly negative start index written as `j = -k`:
`k > 0` keeps the last `k` entries, `k = 0` keeps everything (`-0 == 0`), and
`k < 0` is a plain nonnegative start index `-k`. -/
def pySliceFromNeg (l : List Message) (k : Int) : List Message :=
  if 0 < k then l.drop (l.length - k.toNat) else l.drop (-k).toNat

/-- `_trim_conversation`, as a function of the max length and the log. -/
def trimConversation (maxLength : Nat) (conversation : List Message) : List Message :=
  if conversation.length ≤ maxLength then conversation
  else
    let system_message : Option Message :=
      match conversation with
      | [] => none
      | m :: _ => if m.role = "system" then some m else none
    let messages_to_keep :=
      pySliceFromNeg conversation ((maxLength : Int) - (if system_message.isSome then 1 else 0))
    match system_message with
    | some m => m :: messages_to_keep
    | none => messages_to_keep

/-- Range check and lookup of `get_stop_id_from_selection` once the selection
has parsed (`none` models the caught `ValueError`). -/
def selectionLookup (results : List Stop) : Option Int → String
  | none => ""
  | some n =>
    if !results.isEmpty ∧ 1 ≤ n ∧ n ≤ (results.length : Int) then
      match results.get? (n.toNat - 1) with
      | some selected_stop => selected_stop.gtfsId.getD ""
      | none => ""
    else ""

/-- `get_stop_id_from_selection`: parse the selection (`int(selection.strip())`),
check range, return the candidate's `gtfsId` (or `''` when anything is off). -/
def get_stop_id_from_selection (results : List Stop) (selection : String) : String :=
  selectionLookup results (pyParseInt (pyStrip selection))

/-! ## The dialogue orchestrator (`send_message`) -/

/-- Orchestration-level effects of one turn, in order of occurrence. -/
inductive Event where
  | llmCall : Event
  | toolWeather : Event
  | toolDepartures (stop_id : Option String) : Event
  | toolTime : Event
  | toolStops (searched : String) : Event
deriving DecidableEq

/-- A `{"role": "user", ...}` log entry. -/
def userMessage (text : String) : Message :=
  { role := "user", content := some text }

/-- A `{"role": "assistant", ...}` log entry without tool calls. -/
def assistantMessage (text : Option String) : Message :=
  { role := "assistant", content := text }

/-- A `{"role": "tool", ...}` log entry correlated to its invocation. -/
def toolMessage (call_id : String) (text : String) : Message :=
  { role := "tool", content := some text, tool_call_id := some call_id }

/-- The guard of the numeric-selection short-circuit:
`self.last_stop_search_results and message.strip().isdigit() and
1 <= int(message.strip()) <= len(self.last_stop_search_results)`. -/
def numericSelectionGuard (st : ChatState) (message : String) : Bool :=
  !st.last_stop_search_results.isEmpty
    && pyIsDigit (pyStrip message)
    && decide (1 ≤ digitsToNat (pyStrip message))
    && decide (digitsToNat (pyStrip message) ≤ st.last_stop_search_results.length)

/-- Dispatch of one tool call inside the tool loop of `send_message`: yields
the formatted result text, the updated pending-selection list, and the
orchestration/transport effects. -/
def execToolCall (w : World) (pending : List Stop) (tc : ToolCall) :
    String × List Stop × List Event × List NetCall :=
  if tc.fn = "get_weather" then
    let res := get_weather w.net
    (format_weather_response res.1, pending, [Event.toolWeather], res.2)
  else if tc.fn = "get_next_departures" then
    let stop_id := tc.args.stop_id
    let res := get_next_departures w.digitransit_api_key w.net stop_id
    -- second argument of the formatter is `stop_id or "HSL:1434183"`
    (format_bus_response res.1 (if pyFalsy stop_id then defaultStopId else stop_id.getD ""),
      pending, [Event.toolDepartures stop_id], res.2)
  else if tc.fn = "get_current_time" then
    (format_time_response (get_current_time w.clock), pending, [Event.toolTime], [])
  else if tc.fn = "get_stops_by_name" then
    let search_name := tc.args.name.getD ""
    let res := get_stops_by_name w.digitransit_api_key w.net search_name
    let fr := format_stops_response res.1 search_name pending
    (fr.1, fr.2, [Event.toolStops search_name], res.2)
  else
    ("Unknown function: " ++ tc.fn, pending, [], [])

/-- The loop `for tool_call in response_message.tool_calls:` — executes each
call in order, appending one tool-role message per invocation. -/
def runToolCalls (w : World) : List ToolCall → List Message → List Stop →
    List Message × List Stop × List Event × List NetCall
  | [], conv, pending => (conv, pending, [], [])
  | tc :: rest, conv, pending =>
    let ex := execToolCall w pending tc
    let rec2 := runToolCalls w rest (conv ++ [toolMessage tc.id ex.1]) ex.2.1
    (rec2.1, rec2.2.1, ex.2.2.1 ++ rec2.2.2.1, ex.2.2.2 ++ rec2.2.2.2)

/-- The model-mediated portion of `send_message` (everything from line
`self.conversation.append({"role": "user", ...})` on): append the user message,
trim, consult the LLM, run any requested tools, ask for the follow-up
completion, and catch any LLM exception at the turn boundary.  The result is
the returned text (which is `None` when the model's final content is null), the
successor state, and the effect traces. -/
def sendModelPath (w : World) (st : ChatState) (message : String) :
    Option String × ChatState × List Event × List NetCall :=
  let conv1 := trimConversation st.conversationMaxLength
    (st.conversation ++ [userMessage message])
  match w.llm conv1 with
  | .error e =>
    (some ("Error: " ++ e), { st with conversation := conv1 }, [Event.llmCall], [])
  | .ok response_message =>
    if response_message.tool_calls.isEmpty then
      let conv2 := trimConversation st.conversationMaxLength
        (conv1 ++ [assistantMessage response_message.content])
      (response_message.content, { st with conversation := conv2 }, [Event.llmCall], [])
    else
      let conv2 := conv1 ++
        [{ role := "assistant", content := response_message.content,
           tool_calls := response_message.tool_calls }]
      let rtc := runToolCalls w response_message.tool_calls conv2 st.last_stop_search_results
      match w.llm rtc.1 with
      | .error e =>
        (some ("Error: " ++ e),
          { st with conversation := rtc.1, last_stop_search_results := rtc.2.1 },
          Event.llmCall :: rtc.2.2.1 ++ [Event.llmCall], rtc.2.2.2)
      | .ok final_message =>
        let conv4 := trimConversation st.conversationMaxLength
          (rtc.1 ++ [assistantMessage final_message.content])
        (final_message.content,
          { st with conversation := conv4, last_stop_search_results := rtc.2.1 },
          Event.llmCall :: rtc.2.2.1 ++ [Event.llmCall], rtc.2.2.2)

/-- The body of the disambiguation short-circuit of `send_message` (the inside
of `if stop_id:`): fetch departures for the selected stop, format, append the
user and assistant messages, clear the pending selection, trim, return. -/
def sendSelectionPath (w : World) (st : ChatState) (message : String) :
    Option String × ChatState × List Event × List NetCall :=
  let stop_id := get_stop_id_from_selection st.last_stop_search_results (pyStrip message)
  let res := get_next_departures w.digitransit_api_key w.net (some stop_id)
  let formatted_result := format_bus_response res.1 stop_id
  let conv := trimConversation st.conversationMaxLength
    (st.conversation ++ [userMessage message, assistantMessage (some formatted_result)])
  (some formatted_result,
    { st with conversation := conv, last_stop_search_results := [] },
    [Event.toolDepartures (some stop_id)], res.2)

/-- `send_message`: the disambiguation short-circuit when the guard holds and
the selected candidate has a non-empty `gtfsId` (`if stop_id:`), otherwise the
model-mediated path. -/
def sendMessage (w : World) (st : ChatState) (message : String) :
    Option String × ChatState × List Event × List NetCall :=
  if numericSelectionGuard st message then
    if get_stop_id_from_selection st.last_stop_search_results (pyStrip message) ≠ "" then
      sendSelectionPath w st message
    else
      sendModelPath w st message
  else
    sendModelPath w st message

/-- Returned text of a turn. -/
def replyOf (r : Option String × ChatState × List Event × List NetCall) : Option String := r.1

/-- Successor state of a turn. -/
def stateOf (r : Option String × ChatState × List Event × List NetCall) : ChatState := r.2.1

/-- Orchestration events of a turn. -/
def eventsOf (r : Option String × ChatState × List Event × List NetCall) : List Event := r.2.2.1

/-- Network calls of a turn. -/
def netOf (r : Option String × ChatState × List Event × List NetCall) : List NetCall := r.2.2.2

/-! ## Helper lemmas on the Python string primitives -/

theorem digitChar_not_space {c : Char} (h : pyIsDigitChar c = true) :
    pyIsSpaceChar c = false := by
  cases hs : pyIsSpaceChar c with
  | false => rfl
  | true =>
    exfalso
    simp only [pyIsSpaceChar, Bool.or_eq_true, decide_eq_true_eq] at hs
    rcases hs with ((((h1 | h1) | h1) | h1) | h1) | h1 <;> subst h1 <;>
      exact absurd h (by decide)

theorem digitChar_ne_signs {c : Char} (h : pyIsDigitChar c = true) :
    c ≠ '-' ∧ c ≠ '+' := by
  constructor <;> rintro rfl <;> exact absurd h (by decide)

theorem dropWhile_space_of_digits {l : List Char}
    (h : ∀ c ∈ l, pyIsDigitChar c = true) : l.dropWhile pyIsSpaceChar = l := by
  cases l with
  | nil => rfl
  | cons c t =>
    rw [List.dropWhile_cons, digitChar_not_space (h c (List.mem_cons_self c t))]
    simp

theorem pyIsDigit_spec {s : String} (h : pyIsDigit s = true) :
    s.data ≠ [] ∧ ∀ c ∈ s.data, pyIsDigitChar c = true := by
  simp only [pyIsDigit, Bool.and_eq_true, Bool.not_eq_true', List.isEmpty_eq_false_iff_exists_mem,
    List.all_eq_true] at h
  rcases h with ⟨⟨x, hx⟩, h2⟩
  exact ⟨fun hnil => by simp [hnil] at hx, h2⟩

theorem pyStrip_of_digits {s : String} (h : pyIsDigit s = true) : pyStrip s = s := by
  have hall := (pyIsDigit_spec h).2
  have h1 : s.data.dropWhile pyIsSpaceChar = s.data := dropWhile_space_of_digits hall
  have h2 : s.data.reverse.dropWhile pyIsSpaceChar = s.data.reverse :=
    dropWhile_space_of_digits (fun c hc => hall c (List.mem_reverse.mp hc))
  show String.mk (pyStripList s.data) = s
  rw [pyStripList, h1, h2, List.reverse_reverse]

theorem pyParseInt_of_digits {s : String} (h : pyIsDigit s = true) :
    pyParseInt s = some ((digitsToNat s : Nat) : Int) := by
  obtain ⟨hne, hall⟩ := pyIsDigit_spec h
  rw [pyParseInt, pyStrip_of_digits h]
  cases hs : s.data with
  | nil => exact absurd hs hne
  | cons c rest =>
    have hc : pyIsDigitChar c = true := hall c (hs ▸ List.mem_cons_self c rest)
    obtain ⟨hm, hp⟩ := digitChar_ne_signs hc
    rw [pyParseIntList, if_neg hm, if_neg hp, if_pos]
    · rw [digitsToNat, hs]
    · rw [← hs]
      simp only [List.all_eq_true]
      exact fun c hc => hall c hc

/-! ## Helper lemmas on the orchestrator -/

theorem isEmpty_false_iff {α : Type _} (l : List α) : l.isEmpty = false ↔ l ≠ [] := by
  cases l <;> simp

theorem numericSelectionGuard_iff (st : ChatState) (msg : String) :
    numericSelectionGuard st msg = true ↔
      st.last_stop_search_results ≠ [] ∧ pyIsDigit (pyStrip msg) = true ∧
      1 ≤ digitsToNat (pyStrip msg) ∧
      digitsToNat (pyStrip msg) ≤ st.last_stop_search_results.length := by
  simp [numericSelectionGuard, Bool.and_eq_true, Bool.not_eq_true',
    isEmpty_false_iff, decide_eq_true_eq, and_assoc]

theorem get_stop_id_of_digits (results : List Stop) (t : String)
    (hd : pyIsDigit t = true) (h1 : 1 ≤ digitsToNat t)
    (h2 : digitsToNat t ≤ results.length) (hne : results ≠ []) :
    get_stop_id_from_selection results t =
      ((results.get? (digitsToNat t - 1)).bind Stop.gtfsId).getD "" := by
  unfold get_stop_id_from_selection
  rw [pyStrip_of_digits hd, pyParseInt_of_digits hd]
  have hemp : results.isEmpty = false := (isEmpty_false_iff results).mpr hne
  have hcond : (!results.isEmpty) = true ∧ (1 : Int) ≤ (digitsToNat t : Int) ∧
      (digitsToNat t : Int) ≤ (results.length : Int) := by
    refine ⟨?_, by exact_mod_cast h1, by exact_mod_cast h2⟩
    simp [hemp]
  rw [selectionLookup, if_pos hcond]
  rw [show ((digitsToNat t : Nat) : Int).toNat = digitsToNat t from Int.toNat_natCast _]
  cases results.get? (digitsToNat t - 1) with
  | none => rfl
  | some stop => cases stop.gtfsId <;> rfl

theorem llmCall_mem_sendModelPath (w : World) (st : ChatState) (msg : String) :
    Event.llmCall ∈ eventsOf (sendModelPath w st msg) := by
  cases hllm : w.llm (trimConversation st.conversationMaxLength
      (st.conversation ++ [userMessage msg])) with
  | error e => simp [sendModelPath, hllm, eventsOf]
  | ok resp =>
    cases hemp : resp.tool_calls.isEmpty with
    | true => simp [sendModelPath, hllm, hemp, eventsOf]
    | false =>
      simp only [sendModelPath, hllm, hemp, eventsOf]
      cases w.llm (runToolCalls w resp.tool_calls _ st.last_stop_search_results).1 <;> simp

theorem sendMessage_eq_model_of_guard_false {st : ChatState} {msg : String}
    (w : World) (hg : numericSelectionGuard st msg = false) :
    sendMessage w st msg = sendModelPath w st msg := by
  simp [sendMessage, hg]

theorem sendMessage_eq_model_of_empty_id {st : ChatState} {msg : String} (w : World)
    (hid : get_stop_id_from_selection st.last_stop_search_results (pyStrip msg) = "") :
    sendMessage w st msg = sendModelPath w st msg := by
  unfold sendMessage
  split
  · simp [hid]
  · rfl

theorem format_stops_pending (d : StopsData) (nm : String) (pending : List Stop) :
    (format_stops_response d nm pending).2 = pending ∨
      (format_stops_response d nm pending).2 ≠ [] := by
  unfold format_stops_response
  split
  · exact Or.inl rfl
  · split
    · exact Or.inl rfl
    · refine Or.inr ?_
      dsimp only
      split <;> simp

theorem execToolCall_pending (w : World) (pending : List Stop) (tc : ToolCall) :
    (execToolCall w pending tc).2.1 = pending ∨ (execToolCall w pending tc).2.1 ≠ [] := by
  by_cases h1 : tc.fn = "get_weather"
  · simp [execToolCall, h1]
  by_cases h2 : tc.fn = "get_next_departures"
  · simp [execToolCall, h1, h2]
  by_cases h3 : tc.fn = "get_current_time"
  · simp [execToolCall, h1, h2, h3]
  by_cases h4 : tc.fn = "get_stops_by_name"
  · simpa [execToolCall, h1, h2, h3, h4] using format_stops_pending
      (get_stops_by_name w.digitransit_api_key w.net (tc.args.name.getD "")).1
      (tc.args.name.getD "") pending
  · simp [execToolCall, h1, h2, h3, h4]

theorem execToolCall_pending_of_no_stops (w : World) (pending : List Stop) (tc : ToolCall)
    (h : ∀ nm, Event.toolStops nm ∉ (execToolCall w pending tc).2.2.1) :
    (execToolCall w pending tc).2.1 = pending := by
  by_cases h1 : tc.fn = "get_weather"
  · simp [execToolCall, h1]
  by_cases h2 : tc.fn = "get_next_departures"
  · simp [execToolCall, h1, h2]
  by_cases h3 : tc.fn = "get_current_time"
  · simp [execToolCall, h1, h2, h3]
  by_cases h4 : tc.fn = "get_stops_by_name"
  · exact absurd (by simp [execToolCall, h1, h2, h3, h4]) (h (tc.args.name.getD ""))
  · simp [execToolCall, h1, h2, h3, h4]

theorem runToolCalls_pending_of_no_stops (w : World) : ∀ (tcs : List ToolCall)
    (conv : List Message) (pending : List Stop),
    (∀ nm, Event.toolStops nm ∉ (runToolCalls w tcs conv pending).2.2.1) →
    (runToolCalls w tcs conv pending).2.1 = pending := by
  intro tcs
  induction tcs with
  | nil => intro conv pending _; rfl
  | cons tc rest ih =>
    intro conv pending h
    have hsplit : ∀ nm, Event.toolStops nm ∉ (execToolCall w pending tc).2.2.1 ∧
        Event.toolStops nm ∉ (runToolCalls w rest
          (conv ++ [toolMessage tc.id (execToolCall w pending tc).1])
          (execToolCall w pending tc).2.1).2.2.1 := by
      intro nm
      have := h nm
      simp only [runToolCalls, List.mem_append] at this
      exact ⟨fun hm => this (Or.inl hm), fun hm => this (Or.inr hm)⟩
    have hp : (execToolCall w pending tc).2.1 = pending :=
      execToolCall_pending_of_no_stops w pending tc (fun nm => (hsplit nm).1)
    have := ih (conv ++ [toolMessage tc.id (execToolCall w pending tc).1])
      (execToolCall w pending tc).2.1 (fun nm => (hsplit nm).2)
    simpa [runToolCalls, hp] using this

theorem runToolCalls_pending_ne (w : World) : ∀ (tcs : List ToolCall)
    (conv : List Message) (pending : List Stop), pending ≠ [] →
    (runToolCalls w tcs conv pending).2.1 ≠ [] := by
  intro tcs
  induction tcs with
  | nil => intro conv pending h; simpa [runToolCalls] using h
  | cons tc rest ih =>
    intro conv pending h
    have hstep : (execToolCall w pending tc).2.1 ≠ [] := by
      rcases execToolCall_pending w pending tc with he | he
      · rw [he]; exact h
      · exact he
    simpa [runToolCalls] using
      ih (conv ++ [toolMessage tc.id (execToolCall w pending tc).1])
        (execToolCall w pending tc).2.1 hstep

theorem runToolCalls_conv_ext (w : World) : ∀ (tcs : List ToolCall)
    (conv : List Message) (pending : List Stop),
    ∃ tail, (runToolCalls w tcs conv pending).1 = conv ++ tail := by
  intro tcs
  induction tcs with
  | nil => intro conv pending; exact ⟨[], by simp [runToolCalls]⟩
  | cons tc rest ih =>
    intro conv pending
    obtain ⟨tail, htail⟩ := ih (conv ++ [toolMessage tc.id (execToolCall w pending tc).1])
      (execToolCall w pending tc).2.1
    exact ⟨toolMessage tc.id (execToolCall w pending tc).1 :: tail, by
      simp [runToolCalls, htail]⟩

theorem sendModelPath_pending_of_no_stops (w : World) (st : ChatState) (msg : String)
    (h : ∀ nm, Event.toolStops nm ∉ eventsOf (sendModelPath w st msg)) :
    (stateOf (sendModelPath w st msg)).last_stop_search_results =
      st.last_stop_search_results := by
  cases hllm : w.llm (trimConversation st.conversationMaxLength
      (st.conversation ++ [userMessage msg])) with
  | error e => simp [sendModelPath, hllm, stateOf]
  | ok resp =>
    cases hemp : resp.tool_calls.isEmpty with
    | true => simp [sendModelPath, hllm, hemp, stateOf]
    | false =>
      simp only [sendModelPath, hllm, hemp, eventsOf, stateOf] at h ⊢
      have hrun := runToolCalls_pending_of_no_stops w resp.tool_calls
        (trimConversation st.conversationMaxLength (st.conversation ++ [userMessage msg]) ++
          [{ role := "assistant", content := resp.content, tool_calls := resp.tool_calls }])
        st.last_stop_search_results (by
          intro nm hm
          have := h nm
          revert this
          cases w.llm (runToolCalls w resp.tool_calls _ st.last_stop_search_results).1 <;>
            simp [hm])
      revert h
      cases w.llm (runToolCalls w resp.tool_calls _ st.last_stop_search_results).1 <;>
        intro h <;> simpa using hrun

theorem sendModelPath_pending_ne (w : World) (st : ChatState) (msg : String)
    (hne : st.last_stop_search_results ≠ []) :
    (stateOf (sendModelPath w st msg)).last_stop_search_results ≠ [] := by
  cases hllm : w.llm (trimConversation st.conversationMaxLength
      (st.conversation ++ [userMessage msg])) with
  | error e => simpa [sendModelPath, hllm, stateOf] using hne
  | ok resp =>
    cases hemp : resp.tool_calls.isEmpty with
    | true => simpa [sendModelPath, hllm, hemp, stateOf] using hne
    | false =>
      have hrun := runToolCalls_pending_ne w resp.tool_calls
        (trimConversation st.conversationMaxLength (st.conversation ++ [userMessage msg]) ++
          [{ role := "assistant", content := resp.content, tool_calls := resp.tool_calls }])
        st.last_stop_search_results hne
      simp only [sendModelPath, hllm, hemp, stateOf]
      cases w.llm (runToolCalls w resp.tool_calls _ st.last_stop_search_results).1 <;>
        simpa using hrun

/-! ## Helper lemmas on retention trimming -/

/-- Whether the log starts with a system-role message. -/
def headIsSystem : List Message → Bool
  | [] => false
  | m :: _ => m.role = "system"

theorem trim_of_le {M : Nat} {conv : List Message} (h : conv.length ≤ M) :
    trimConversation M conv = conv := by
  unfold trimConversation
  exact if_pos h

theorem trim_cons_of_sys {M : Nat} {m : Message} {l : List Message} (h : m.role = "system") :
    ∃ t, trimConversation M (m :: l) = m :: t := by
  unfold trimConversation
  split
  · exact ⟨l, rfl⟩
  · simp only [h, if_pos]
    exact ⟨_, rfl⟩

theorem trim_sys_of_two_le {M : Nat} {m : Message} {rest : List Message}
    (hrole : m.role = "system") (hM : 2 ≤ M) (hL : M < (m :: rest).length) :
    trimConversation M (m :: rest) =
      m :: (m :: rest).drop ((m :: rest).length - (M - 1)) := by
  unfold trimConversation
  rw [if_neg (by omega)]
  simp only [hrole, if_pos, Option.isSome_some]
  have hk : (0 : Int) < (M : Int) - 1 := by omega
  have ht : ((M : Int) - 1).toNat = M - 1 := by omega
  rw [pySliceFromNeg, if_pos hk, ht]

theorem trim_nosys {M : Nat} {m : Message} {rest : List Message}
    (hrole : ¬ m.role = "system") (hM : 1 ≤ M) (hL : M < (m :: rest).length) :
    trimConversation M (m :: rest) = (m :: rest).drop ((m :: rest).length - M) := by
  unfold trimConversation
  rw [if_neg (by omega)]
  simp only [hrole, if_false, Option.isSome_none, Bool.false_eq_true, pySliceFromNeg]
  rw [if_pos (by omega : (0 : Int) < (M : Int) - 0)]
  congr 1

theorem trim_head_sys {M : Nat} {m : Message} {rest : List Message}
    (hrole : m.role = "system") :
    (trimConversation M (m :: rest)).head? = some m := by
  obtain ⟨t, ht⟩ := trim_cons_of_sys (M := M) (l := rest) hrole
  rw [ht]
  rfl

theorem trim_sys_suffix {M : Nat} {m : Message} {rest : List Message}
    (hrole : m.role = "system") (hM : M ≠ 1) :
    ∃ k, trimConversation M (m :: rest) = m :: rest.drop k := by
  by_cases hle : (m :: rest).length ≤ M
  · exact ⟨0, by rw [trim_of_le hle]; simp⟩
  · rcases M with _ | M1
    · refine ⟨0, ?_⟩
      unfold trimConversation
      rw [if_neg hle]
      simp only [hrole, if_pos, Option.isSome_some]
      rw [pySliceFromNeg, if_neg (by omega)]
      norm_num
    · rcases M1 with _ | M'
      · exact absurd rfl hM
      · refine ⟨(m :: rest).length - (M' + 1) - 1, ?_⟩
        rw [trim_sys_of_two_le hrole (by omega) (by omega)]
        have hj : (m :: rest).length - (M' + 2 - 1) =
            ((m :: rest).length - (M' + 1) - 1) + 1 := by
          omega
        rw [hj, List.drop_succ_cons]

/-! ## Claim C4 -/

/-- Claim C4 (corrected): for a log of length `L > M`, trimming yields exactly
`M` messages — the original system head (when present) followed by the most
recent messages in original order — provided `M ≥ 2`, or `M ≥ 1` when the log
does not start with a system message.  (At `M = 1` with a system head the
Python slice `conversation[-0:]` keeps the whole list, see the
counterexample.) -/
theorem C4_trim_spec (M : Nat) (conv : List Message) (m : Message) (rest : List Message)
    (hc : conv = m :: rest) (hL : M < conv.length) :
    (m.role = "system" → 2 ≤ M →
      trimConversation M conv = m :: conv.drop (conv.length - (M - 1)) ∧
      (trimConversation M conv).length = M) ∧
    (¬ m.role = "system" → 1 ≤ M →
      trimConversation M conv = conv.drop (conv.length - M) ∧
      (trimConversation M conv).length = M) := by
  subst hc
  constructor
  · intro hrole hM
    have heq := trim_sys_of_two_le hrole hM hL
    refine ⟨heq, ?_⟩
    rw [heq]
    simp only [List.length_cons, List.length_drop]
    simp only [List.length_cons] at hL
    omega
  · intro hrole hM
    have heq := trim_nosys hrole hM hL
    refine ⟨heq, ?_⟩
    rw [heq]
    simp only [List.length_drop]
    omega

/-- Demo messages for concrete evaluations. -/
def demoSys : Message := { role := "system", content := some "S" }

def demoUser : Message := userMessage "hello"

def demoConv5 : List Message :=
  [demoSys, userMessage "u1", assistantMessage (some "a1"),
   userMessage "u2", assistantMessage (some "a2")]

/-- Claim C4, counterexample to the claim as stated: with configured maximum 1
and a two-message log (system + user), trimming returns a three-message log,
not one of length 1. -/
theorem C4_counterexample :
    1 < ([demoSys, demoUser] : List Message).length ∧
    (trimConversation 1 [demoSys, demoUser]).length ≠ 1 := by
  decide

/-- Claim C4, witness: the five-message log trimmed to 3 keeps the system
message plus the last two messages. -/
theorem C4_witness :
    trimConversation 3 demoConv5 = demoSys :: demoConv5.drop (demoConv5.length - (3 - 1)) ∧
    (trimConversation 3 demoConv5).length = 3 :=
  (C4_trim_spec 3 demoConv5 demoSys _ rfl (by decide)).1 rfl (by decide)

/-! ## Claim C5 -/

theorem startsWith_append {m : Message} {conv : List Message} (l : List Message)
    (h : ∃ t, conv = m :: t) : ∃ t, conv ++ l = m :: t := by
  obtain ⟨t, rfl⟩ := h
  exact ⟨t ++ l, rfl⟩

theorem startsWith_trim {M : Nat} {m : Message} {conv : List Message}
    (hrole : m.role = "system") (h : ∃ t, conv = m :: t) :
    ∃ t, trimConversation M conv = m :: t := by
  obtain ⟨t, rfl⟩ := h
  exact trim_cons_of_sys hrole

theorem sendModelPath_head_sys (w : World) (st : ChatState) (msg : String)
    (m : Message) (rest : List Message) (hc : st.conversation = m :: rest)
    (hrole : m.role = "system") :
    ∃ rest2, (stateOf (sendModelPath w st msg)).conversation = m :: rest2 := by
  have h1 : ∃ t, trimConversation st.conversationMaxLength
      (st.conversation ++ [userMessage msg]) = m :: t :=
    startsWith_trim hrole (startsWith_append _ ⟨rest, hc⟩)
  cases hllm : w.llm (trimConversation st.conversationMaxLength
      (st.conversation ++ [userMessage msg])) with
  | error e => simpa only [sendModelPath, hllm, stateOf] using h1
  | ok resp =>
    cases hemp : resp.tool_calls.isEmpty with
    | true =>
      simp only [sendModelPath, hllm, hemp, stateOf]
      exact startsWith_trim hrole (startsWith_append _ h1)
    | false =>
      have h2 : ∃ t, (runToolCalls w resp.tool_calls
          (trimConversation st.conversationMaxLength (st.conversation ++ [userMessage msg]) ++
            [{ role := "assistant", content := resp.content, tool_calls := resp.tool_calls }])
          st.last_stop_search_results).1 = m :: t := by
        obtain ⟨tail, htail⟩ := runToolCalls_conv_ext w resp.tool_calls
          (trimConversation st.conversationMaxLength (st.conversation ++ [userMessage msg]) ++
            [{ role := "assistant", content := resp.content, tool_calls := resp.tool_calls }])
          st.last_stop_search_results
        rw [htail]
        exact startsWith_append _ (startsWith_append _ h1)
      simp only [sendModelPath, hllm, hemp, stateOf]
      cases hllm2 : w.llm (runToolCalls w resp.tool_calls
          (trimConversation st.conversationMaxLength (st.conversation ++ [userMessage msg]) ++
            [{ role := "assistant", content := resp.content, tool_calls := resp.tool_calls }])
          st.last_stop_search_results).1 with
      | error e => exact h2
      | ok final_message => exact startsWith_trim hrole (startsWith_append _ h2)

theorem sendSelectionPath_head_sys (w : World) (st : ChatState) (msg : String)
    (m : Message) (rest : List Message) (hc : st.conversation = m :: rest)
    (hrole : m.role = "system") :
    ∃ rest2, (stateOf (sendSelectionPath w st msg)).conversation = m :: rest2 := by
  have := startsWith_trim (M := st.conversationMaxLength) hrole
    (startsWith_append ([userMessage msg, assistantMessage (some (format_bus_response
      (get_next_departures w.digitransit_api_key w.net
        (some (get_stop_id_from_selection st.last_stop_search_results (pyStrip msg)))).1
      (get_stop_id_from_selection st.last_stop_search_results (pyStrip msg))))])
      ⟨rest, hc⟩)
  exact this

theorem sendMessage_head_sys (w : World) (st : ChatState) (msg : String)
    (m : Message) (rest : List Message) (hc : st.conversation = m :: rest)
    (hrole : m.role = "system") :
    ∃ rest2, (stateOf (sendMessage w st msg)).conversation = m :: rest2 := by
  unfold sendMessage
  split
  · split
    · exact sendSelectionPath_head_sys w st msg m rest hc hrole
    · exact sendModelPath_head_sys w st msg m rest hc hrole
  · exact sendModelPath_head_sys w st msg m rest hc hrole

/-- Claim C5 (corrected): a session's log always starts with the system
message: it does so initially, retention trimming never removes the leading
system message, and every `send_message` turn preserves it at position 0.
Trimming removes only the oldest non-leading entries — the trimmed log is the
system head followed by a suffix of the rest — provided the configured maximum
is not 1; at maximum 1 trimming instead duplicates the system message (still
never removing it, see the counterexample). -/
theorem C5_system_invariant :
    (∀ maxLen : Nat, headIsSystem (initState maxLen).conversation = true) ∧
    (∀ (M : Nat) (m : Message) (rest : List Message), m.role = "system" →
      (trimConversation M (m :: rest)).head? = some m) ∧
    (∀ (M : Nat) (m : Message) (rest : List Message), m.role = "system" → M ≠ 1 →
      ∃ k, trimConversation M (m :: rest) = m :: rest.drop k) ∧
    (∀ (w : World) (st : ChatState) (msg : String) (m : Message) (rest : List Message),
      st.conversation = m :: rest → m.role = "system" →
      ∃ rest2, (stateOf (sendMessage w st msg)).conversation = m :: rest2) := by
  refine ⟨fun _ => rfl, ?_, ?_, ?_⟩
  · intro M m rest hrole
    exact trim_head_sys hrole
  · intro M m rest hrole hM
    exact trim_sys_suffix hrole hM
  · intro w st msg m rest hc hrole
    exact sendMessage_head_sys w st msg m rest hc hrole

/-- Claim C5, counterexample to the claim as stated: with configured maximum 1,
trimming a two-message log makes it longer (it duplicates the system message),
so trimming is not removal-only. -/
theorem C5_counterexample :
    headIsSystem [demoSys, demoUser] = true ∧
    1 < ([demoSys, demoUser] : List Message).length ∧
    ([demoSys, demoUser] : List Message).length <
      (trimConversation 1 [demoSys, demoUser]).length := by
  decide

/-- Claim C5, witness: the head of the trimmed five-message demo log is the
original system message. -/
theorem C5_witness : (trimConversation 3 demoConv5).head? = some demoSys :=
  C5_system_invariant.2.1 3 demoSys (demoConv5.drop 1) rfl

/-! ## Claims C8 and C9 -/

/-- A network oracle on which every transport attempt fails; used for concrete
evaluations (when the credential is missing it is never consulted). -/
def netDemo : Net :=
  { weather := .error "offline", bus := fun _ => .error "offline",
    stops := fun _ => .error "offline" }

/-- Claim C8 (confirmed): with the transit credential missing (unset or empty),
`get_next_departures` and `get_stops_by_name` both return the error value
naming `DIGITRANSIT_API_KEY` and issue no network call; the formatters turn
that error into an apology reply, so the turn still completes. -/
theorem C8_missing_credential (key : Option String) (net : Net) (sid : Option String)
    (nm : String) (pending : List Stop) (h : pyFalsy key = true) :
    get_next_departures key net sid = ({ error := some missingKeyMsg }, []) ∧
    get_stops_by_name key net nm = ({ error := some missingKeyMsg }, []) ∧
    missingKeyMsg = "DIGITRANSIT_API_KEY" ++ " not found in environment variables" ∧
    format_bus_response { error := some missingKeyMsg } (sid.getD defaultStopId) =
      "Sorry, I couldn\x27t get the bus departure information: " ++ missingKeyMsg ∧
    (format_stops_response { error := some missingKeyMsg } nm pending).1 =
      "Sorry, I couldn\x27t search for stops: " ++ missingKeyMsg := by
  refine ⟨?_, ?_, rfl, rfl, rfl⟩
  · simp [get_next_departures, h]
  · simp [get_stops_by_name, h]

/-- Claim C8, witness: credential absent, concrete inputs. -/
theorem C8_witness :
    pyFalsy (none : Option String) = true ∧
    (get_next_departures none netDemo none = ({ error := some missingKeyMsg }, []) ∧
     get_stops_by_name none netDemo "hertton" = ({ error := some missingKeyMsg }, []) ∧
     missingKeyMsg = "DIGITRANSIT_API_KEY" ++ " not found in environment variables" ∧
     format_bus_response { error := some missingKeyMsg } ((none : Option String).getD defaultStopId) =
       "Sorry, I couldn\x27t get the bus departure information: " ++ missingKeyMsg ∧
     (format_stops_response { error := some missingKeyMsg } "hertton" []).1 =
       "Sorry, I couldn\x27t search for stops: " ++ missingKeyMsg) :=
  ⟨by decide, C8_missing_credential none netDemo none "hertton" [] (by decide)⟩

/-- Claim C9 (confirmed): every `Err` tool result is rendered as the fixed
apology prefix of its formatter followed by exactly the error message, and the
weather instance of Scenario D produces exactly the specified string. -/
theorem C9_err_apology (e : String) (stop_id : String) (nm : String) (pending : List Stop) :
    format_weather_response { error := some e } =
      "Sorry, I couldn\x27t get the weather information: " ++ e ∧
    format_bus_response { error := some e } stop_id =
      "Sorry, I couldn\x27t get the bus departure information: " ++ e ∧
    (format_stops_response { error := some e } nm pending).1 =
      "Sorry, I couldn\x27t search for stops: " ++ e ∧
    format_time_response { error := some e } =
      "Sorry, I couldn\x27t get the current time: " ++ e ∧
    format_weather_response { error := some "Weather API error: timeout" } =
      "Sorry, I couldn\x27t get the weather information: Weather API error: timeout" :=
  ⟨rfl, rfl, rfl, rfl, rfl⟩

/-! ## Claims C6 and C7: the departures and stop-search formatters -/

theorem strFoldl_shift : ∀ (l : List String) (a : String),
    l.foldl (· ++ ·) a = a ++ l.foldl (· ++ ·) "" := by
  intro l
  induction l with
  | nil => intro a; simp [String.append_empty]
  | cons x xs ih =>
    intro a
    simp only [List.foldl_cons]
    rw [ih (a ++ x), ih ("" ++ x), show ("" ++ x : String) = x from rfl,
      String.append_assoc]

theorem join_cons (s : String) (l : List String) :
    String.join (s :: l) = s ++ String.join l := by
  show (s :: l).foldl (· ++ ·) "" = s ++ l.foldl (· ++ ·) ""
  simp only [List.foldl_cons]
  rw [strFoldl_shift l ("" ++ s)]
  rfl

theorem foldl_render_eq_join (f : Departure → String) : ∀ (l : List Departure) (a : String),
    l.foldl (fun acc d => acc ++ f d) a = a ++ String.join (l.map f) := by
  intro l
  induction l with
  | nil => intro a; simp [String.append_empty, String.join]
  | cons x xs ih =>
    intro a
    simp only [List.foldl_cons, List.map_cons]
    rw [ih (a ++ f x), join_cons, String.append_assoc]

theorem mem_insertDeparture {a x : Departure} : ∀ {l : List Departure},
    a ∈ insertDeparture x l → a = x ∨ a ∈ l := by
  intro l
  induction l with
  | nil => simp [insertDeparture]
  | cons y ys ih =>
    unfold insertDeparture
    split
    · intro h
      rcases List.mem_cons.mp h with rfl | h2
      · exact Or.inr (List.mem_cons_self _ _)
      · rcases ih h2 with rfl | h3
        · exact Or.inl rfl
        · exact Or.inr (List.mem_cons_of_mem _ h3)
    · intro h
      rcases List.mem_cons.mp h with rfl | h2
      · exact Or.inl rfl
      · exact Or.inr h2

theorem insertDeparture_pairwise {x : Departure} : ∀ {l : List Departure},
    List.Pairwise (fun a b => busSortKey a ≤ busSortKey b) l →
    List.Pairwise (fun a b => busSortKey a ≤ busSortKey b) (insertDeparture x l) := by
  intro l
  induction l with
  | nil => intro _; simp [insertDeparture]
  | cons y ys ih =>
    intro h
    rw [List.pairwise_cons] at h
    obtain ⟨hy, hys⟩ := h
    unfold insertDeparture
    split
    · rw [List.pairwise_cons]
      refine ⟨?_, ih hys⟩
      intro a ha
      rcases mem_insertDeparture ha with rfl | ha2
      · assumption
      · exact hy a ha2
    · rename_i hnot
      rw [List.pairwise_cons]
      refine ⟨?_, List.pairwise_cons.mpr ⟨hy, hys⟩⟩
      intro a ha
      rcases List.mem_cons.mp ha with rfl | ha2
      · omega
      · have := hy a ha2
        omega

theorem sortDepartures_pairwise (l : List Departure) :
    List.Pairwise (fun a b => busSortKey a ≤ busSortKey b) (sortDepartures l) := by
  suffices h : ∀ (l acc : List Departure),
      List.Pairwise (fun a b => busSortKey a ≤ busSortKey b) acc →
      List.Pairwise (fun a b => busSortKey a ≤ busSortKey b)
        (l.foldl (fun acc x => insertDeparture x acc) acc) by
    exact h l [] (List.Pairwise.nil)
  intro l
  induction l with
  | nil => intro acc hacc; exact hacc
  | cons x xs ih =>
    intro acc hacc
    simp only [List.foldl_cons]
    exact ih _ (insertDeparture_pairwise hacc)

theorem insertDeparture_perm (x : Departure) : ∀ (l : List Departure),
    (insertDeparture x l).Perm (x :: l) := by
  intro l
  induction l with
  | nil => exact List.Perm.refl _
  | cons y ys ih =>
    unfold insertDeparture
    split
    · exact (ih.cons y).trans (List.Perm.swap x y ys)
    · exact List.Perm.refl _

theorem sortDepartures_perm (l : List Departure) : (sortDepartures l).Perm l := by
  suffices h : ∀ (l acc : List Departure),
      (l.foldl (fun acc x => insertDeparture x acc) acc).Perm (acc ++ l) by
    simpa using h l []
  intro l
  induction l with
  | nil => intro acc; simp
  | cons x xs ih =>
    intro acc
    simp only [List.foldl_cons]
    refine ((ih (insertDeparture x acc)).trans ?_)
    refine (((insertDeparture_perm x acc).append_right xs).trans ?_)
    exact (List.perm_middle).symm

/-- Claim C6 (corrected): on a successful departures payload with records, the
formatter output is the header plus one rendered line per shown record; the
shown records are the first 5 of the list sorted ascending by
realtime-if-present-else-scheduled offset; each line carries the
realtime/scheduled glyph and the `HH:MM` Helsinki rendering of
`service_day + offset`, where the rendered offset is the realtime one exactly
when it is present *and non-zero* (Python's `or` treats a present `0` as
absent — see the counterexample), otherwise the scheduled one. -/
theorem C6_departures_format (bd : BusData) (sid : String) (bstop : BusStop)
    (h1 : bd.error = none) (h2 : bd.stop = some bstop)
    (h3 : bstop.stoptimesWithoutPatterns ≠ []) :
    format_bus_response bd sid =
      pyStrip (busHeader (bstop.name.getD ("Stop " ++ sid)) ++
        String.join (((sortDepartures bstop.stoptimesWithoutPatterns).take 5).map
          renderDepartureLine)) ∧
    ((sortDepartures bstop.stoptimesWithoutPatterns).take 5).length ≤ 5 ∧
    (sortDepartures bstop.stoptimesWithoutPatterns).Perm bstop.stoptimesWithoutPatterns ∧
    List.Pairwise (fun a b => busSortKey a ≤ busSortKey b)
      ((sortDepartures bstop.stoptimesWithoutPatterns).take 5) ∧
    (∀ dep, renderDepartureLine dep =
      (if dep.realtime then "🟢" else "🔵") ++ " Bus " ++
        (dep.route.bind Route.shortName).getD "N/A" ++ " → " ++
        dep.headsign.getD "Unknown destination" ++ " at " ++
        epochToHelsinkiHHMM (dep.serviceDay.getD 0 + busChosenOffset dep) ++ "\n") ∧
    (∀ dep v, dep.realtimeDeparture = some v → v ≠ 0 → busChosenOffset dep = v) ∧
    (∀ dep, (dep.realtimeDeparture = none ∨ dep.realtimeDeparture = some 0) →
      busChosenOffset dep = dep.scheduledDeparture.getD 0) := by
  refine ⟨?_, List.length_take_le 5 _, sortDepartures_perm _,
    List.Pairwise.sublist (List.take_sublist 5 _) (sortDepartures_pairwise _),
    fun dep => rfl, ?_, ?_⟩
  · have hie : bstop.stoptimesWithoutPatterns.isEmpty = false :=
      (isEmpty_false_iff _).mpr h3
    simp only [format_bus_response, h1, h2, hie, Option.some_bind, Option.map_some',
      Option.getD_some, Bool.false_eq_true, if_false]
    rw [foldl_render_eq_join]
  · intro dep v hv hne
    simp only [busChosenOffset, hv]
    rw [if_neg hne]
  · intro dep h
    rcases h with h | h <;> simp [busChosenOffset, h]

/-- A record whose realtime offset is present but zero. -/
def c6dep : Departure :=
  { scheduledDeparture := some 32400, realtimeDeparture := some 0, realtime := true,
    serviceDay := some 1641859200, headsign := some "Central Station",
    route := some { shortName := some "55" } }

def c6data : BusData :=
  { stop := some { name := some "Demo", stoptimesWithoutPatterns := [c6dep] } }

/-- Claim C6, counterexample to the claim as stated: the record's realtime
offset is present (it is 0), so the claim renders
`service_day + 0` (= `"02:00"` Helsinki); the code's `or` falls back to the
scheduled offset and renders `"11:00"` instead. -/
theorem C6_counterexample :
    c6dep.realtimeDeparture = some 0 ∧
    epochToHelsinkiHHMM (c6dep.serviceDay.getD 0 + 0) = "02:00" ∧
    format_bus_response c6data "HSL:1" =
      "🚌 Next Departures from Demo:\n\n🟢 Bus 55 → Central Station at 11:00" ∧
    format_bus_response c6data "HSL:1" ≠
      "🚌 Next Departures from Demo:\n\n🟢 Bus 55 → Central Station at 02:00" := by
  refine ⟨rfl, by decide, by decide, by decide⟩

/-- The Scenario A payload of the spec (one realtime record). -/
def busDemoStopA : BusStop :=
  { name := some "Test Bus Stop",
    stoptimesWithoutPatterns :=
      [{ realtimeDeparture := some 54000, serviceDay := some 1641859200, realtime := true,
         headsign := some "Central Station", route := some { shortName := some "55" } }] }

def busDemoA : BusData := { stop := some busDemoStopA }

/-- Claim C6, witness: Scenario A formatted — realtime glyph, Bus 55, Central
Station, and `17:00` = `1641859200 + 54000` rendered in Europe/Helsinki. -/
theorem C6_witness :
    format_bus_response busDemoA "HSL:1234" =
      "🚌 Next Departures from Test Bus Stop:\n\n🟢 Bus 55 → Central Station at 17:00" :=
  (C6_departures_format busDemoA "HSL:1234" busDemoStopA rfl rfl (by decide)).1.trans
    (by decide)

theorem stopsLines_eq_enumFrom : ∀ (l : List Stop) (i : Nat),
    stopsLines i l = String.join ((l.enumFrom i).map (fun p => stopLine p.1 p.2)) := by
  intro l
  induction l with
  | nil => intro i; rfl
  | cons s rest ih =>
    intro i
    simp only [stopsLines, List.enumFrom, List.map_cons]
    rw [ih (i + 1), join_cons]

/-- Claim C7 (corrected): on a successful stop search, zero matches yield the
"no stops found" message and leave the pending selection unchanged; exactly one
match yields the detailed view; more than one match yields the 1-based numbered
list in input order.  The pending selection is published for *every* non-empty
result — including a single match — not only for more than one match (see the
counterexample). -/
theorem C7_stops_format (d : StopsData) (nm : String) (pending : List Stop)
    (h : d.error = none) :
    (d.stops = [] → format_stops_response d nm pending =
      ("🚏 No stops found matching \x27" ++ nm ++ "\x27", pending)) ∧
    (∀ s, d.stops = [s] → format_stops_response d nm pending = (stopDetail s, [s])) ∧
    (1 < d.stops.length → format_stops_response d nm pending =
      (pyStrip ("🚏 Found " ++ toString d.stops.length ++ " stops matching \x27" ++ nm ++
        "\x27. Which one do you mean?\n\n" ++
        String.join ((d.stops.enumFrom 1).map (fun p => stopLine p.1 p.2))), d.stops)) := by
  refine ⟨?_, ?_, ?_⟩
  · intro hs
    simp only [format_stops_response, h, hs]
  · intro s hs
    simp only [format_stops_response, h, hs]
    norm_num
  · intro hlen
    cases hs : d.stops with
    | nil => rw [hs] at hlen; simp at hlen
    | cons s rest =>
      rw [hs] at hlen
      simp only [format_stops_response, h, hs, hlen, if_true, ← stopsLines_eq_enumFrom]

/-- A search payload with exactly one matching stop. -/
def oneStopData : StopsData :=
  { stops := [{ gtfsId := some "HSL:1234567", name := some "Herttoniemi",
                code := some "H1234" }] }

/-- Claim C7, counterexample to the claim as stated: a single-match result also
publishes the candidate into the pending selection (the assignment
`self.last_stop_search_results = stops` runs for every non-empty result), so
the selection set is not populated only on more-than-one match. -/
theorem C7_counterexample :
    oneStopData.stops.length = 1 ∧
    (format_stops_response oneStopData "hertton" []).2 ≠ [] := by
  decide

def stopB1 : Stop :=
  { gtfsId := some "HSL:1234567", name := some "Herttoniemi", code := some "H1234" }

def stopB2 : Stop :=
  { gtfsId := some "HSL:7654321", name := some "Herttoniemi asema", code := some "H5678" }

def twoStopsData : StopsData := { stops := [stopB1, stopB2] }

/-- Claim C7, witness: Scenario B — two candidates produce the two-line
numbered list in input order and the pending selection holds exactly those two
candidates in that order. -/
theorem C7_witness :
    format_stops_response twoStopsData "hertton" [] =
      ("🚏 Found 2 stops matching \x27hertton\x27. Which one do you mean?\n\n1. Herttoniemi H1234 (ID: HSL:1234567)\n2. Herttoniemi asema H5678 (ID: HSL:7654321)",
       [stopB1, stopB2]) :=
  ((C7_stops_format twoStopsData "hertton" [] rfl).2.2 (by decide)).trans (by decide)

/-! ## Claims C1, C2, C3 and C10: the orchestrator -/

/-- A world whose LLM endpoint always raises. -/
def worldDown : World :=
  { llm := fun _ => .error "connection refused", net := netDemo }

/-- A session whose pending selection has two candidates with proper ids
(Scenario B aftermath). -/
def goodState : ChatState :=
  { conversation := [demoSys], last_stop_search_results := [stopB1, stopB2] }

/-- A session whose single pending candidate carries no `gtfsId` at all. -/
def ghostState : ChatState :=
  { conversation := [demoSys], last_stop_search_results := [{ name := some "Ghost stop" }] }

/-- A session whose single pending candidate has an empty-string `gtfsId`. -/
def emptyIdState : ChatState :=
  { conversation := [demoSys],
    last_stop_search_results := [{ gtfsId := some "", name := some "Ghost stop" }] }

/-- Claim C1 (corrected): with a non-empty pending selection of size `K`, a
turn bypasses the LLM iff the stripped input is a digit string with value
`N ∈ [1, K]` *and* candidate `N-1` carries a non-empty `gtfsId` — when
`get_stop_id_from_selection` returns `''` the code falls through to the model
path even for an in-range number (see the counterexample).  Every other turn
reaches the LLM. -/
theorem C1_disambiguation_iff (w : World) (st : ChatState) (msg : String)
    (hK : st.last_stop_search_results ≠ []) :
    Event.llmCall ∉ eventsOf (sendMessage w st msg) ↔
      (pyIsDigit (pyStrip msg) = true ∧
       1 ≤ digitsToNat (pyStrip msg) ∧
       digitsToNat (pyStrip msg) ≤ st.last_stop_search_results.length ∧
       ((st.last_stop_search_results.get? (digitsToNat (pyStrip msg) - 1)).bind
         Stop.gtfsId).getD "" ≠ "") := by
  by_cases hg : numericSelectionGuard st msg = true
  · obtain ⟨_, hd, h1, h2⟩ := (numericSelectionGuard_iff st msg).mp hg
    have hsel := get_stop_id_of_digits st.last_stop_search_results (pyStrip msg) hd h1 h2 hK
    by_cases hid : get_stop_id_from_selection st.last_stop_search_results (pyStrip msg) = ""
    · rw [sendMessage_eq_model_of_empty_id w hid]
      constructor
      · intro hmem
        exact absurd (llmCall_mem_sendModelPath w st msg) hmem
      · rintro ⟨_, _, _, hgt⟩
        rw [hsel] at hid
        exact absurd hid hgt
    · have hpath : sendMessage w st msg = sendSelectionPath w st msg := by
        unfold sendMessage
        rw [if_pos hg, if_pos hid]
      rw [hpath]
      constructor
      · intro _
        exact ⟨hd, h1, h2, by rw [← hsel]; exact hid⟩
      · intro _
        simp [sendSelectionPath, eventsOf]
  · have hgf : numericSelectionGuard st msg = false := by simpa using hg
    rw [sendMessage_eq_model_of_guard_false w hgf]
    constructor
    · intro hmem
      exact absurd (llmCall_mem_sendModelPath w st msg) hmem
    · rintro ⟨hd, h1, h2, _⟩
      exact absurd ((numericSelectionGuard_iff st msg).mpr ⟨hK, hd, h1, h2⟩) hg

/-- Claim C1, counterexample to the claim as stated: the pending candidate has
no `gtfsId`, the input `"1"` is numeric and in range (K = 1), yet the turn is
forwarded to the model path (an LLM call occurs). -/
theorem C1_counterexample :
    ghostState.last_stop_search_results ≠ [] ∧
    pyIsDigit (pyStrip "1") = true ∧
    1 ≤ digitsToNat (pyStrip "1") ∧
    digitsToNat (pyStrip "1") ≤ ghostState.last_stop_search_results.length ∧
    Event.llmCall ∈ eventsOf (sendMessage worldDown ghostState "1") := by
  refine ⟨by decide, by decide, by decide, by decide, by decide⟩

/-- Claim C1, witness: candidate 2 of the two-candidate session has a proper
id, so input `"2"` bypasses the LLM. -/
theorem C1_witness :
    Event.llmCall ∉ eventsOf (sendMessage worldDown goodState "2") :=
  (C1_disambiguation_iff worldDown goodState "2" (by decide)).mpr (by decide)

/-- Claim C2 (corrected): when the numeric guard holds and candidate `N-1` has
the non-empty `gtfsId` `g`, the turn is exactly: fetch departures for `g`,
format, append the user and assistant messages, trim, clear the pending
selection, return the formatted text; its whole trace is the one departures
fetch — no LLM call.  The proviso on `gtfsId` is forced by the code's
`if stop_id:` (see the counterexample). -/
theorem C2_selection_turn (w : World) (st : ChatState) (msg : String) (g : String)
    (hK : st.last_stop_search_results ≠ [])
    (hd : pyIsDigit (pyStrip msg) = true)
    (h1 : 1 ≤ digitsToNat (pyStrip msg))
    (h2 : digitsToNat (pyStrip msg) ≤ st.last_stop_search_results.length)
    (hg : ((st.last_stop_search_results.get? (digitsToNat (pyStrip msg) - 1)).bind
      Stop.gtfsId) = some g)
    (hne : g ≠ "") :
    sendMessage w st msg =
      (some (format_bus_response
          (get_next_departures w.digitransit_api_key w.net (some g)).1 g),
       { st with
         conversation := (trimConversation st.conversationMaxLength
           (st.conversation ++ [userMessage msg, assistantMessage (some (format_bus_response
             (get_next_departures w.digitransit_api_key w.net (some g)).1 g))])),
         last_stop_search_results := [] },
       [Event.toolDepartures (some g)],
       (get_next_departures w.digitransit_api_key w.net (some g)).2) := by
  have hsel : get_stop_id_from_selection st.last_stop_search_results (pyStrip msg) = g := by
    rw [get_stop_id_of_digits st.last_stop_search_results (pyStrip msg) hd h1 h2 hK, hg]
    rfl
  have hpath : sendMessage w st msg = sendSelectionPath w st msg := by
    unfold sendMessage
    rw [if_pos ((numericSelectionGuard_iff st msg).mpr ⟨hK, hd, h1, h2⟩)]
    rw [if_pos (by rw [hsel]; exact hne)]
  rw [hpath]
  simp only [sendSelectionPath, hsel]

/-- Claim C2, counterexample to the claim as stated: the selected candidate's
`gtfsId` is the empty string, the input is numeric and in range, yet the turn
makes an LLM call, returns the LLM failure, and does not clear the pending
selection. -/
theorem C2_counterexample :
    emptyIdState.last_stop_search_results ≠ [] ∧
    pyIsDigit (pyStrip "1") = true ∧
    digitsToNat (pyStrip "1") = 1 ∧
    Event.llmCall ∈ eventsOf (sendMessage worldDown emptyIdState "1") ∧
    (stateOf (sendMessage worldDown emptyIdState "1")).last_stop_search_results ≠ [] := by
  refine ⟨by decide, by decide, by decide, by decide, by decide⟩

/-- Claim C2, witness: selecting `"2"` of the two-candidate session resolves
against `HSL:7654321` with the full described outcome. -/
theorem C2_witness :
    sendMessage worldDown goodState "2" =
      (some (format_bus_response
          (get_next_departures worldDown.digitransit_api_key worldDown.net
            (some "HSL:7654321")).1 "HSL:7654321"),
       { goodState with
         conversation := (trimConversation goodState.conversationMaxLength
           (goodState.conversation ++ [userMessage "2", assistantMessage (some (format_bus_response
             (get_next_departures worldDown.digitransit_api_key worldDown.net
               (some "HSL:7654321")).1 "HSL:7654321"))])),
         last_stop_search_results := [] },
       [Event.toolDepartures (some "HSL:7654321")],
       (get_next_departures worldDown.digitransit_api_key worldDown.net
         (some "HSL:7654321")).2) :=
  C2_selection_turn worldDown goodState "2" "HSL:7654321"
    (by decide) (by decide) (by decide) (by decide) (by decide) (by decide)

/-- Claim C3 (corrected): any exception from the LLM endpoint on a
model-mediated turn — from the first completion or from the follow-up
completion after tool calls — is caught at the turn boundary and returned as
the reply `"Error: <message>"`, and the session stays usable; but the log is
*not* rolled back.  If the first completion raises, the log is the trimmed old
log plus the user message of the failed turn, with the pending selection and
effect traces untouched/empty.  If the follow-up completion raises, the
assistant tool-call announcement and the tool result messages also remain
appended (untrimmed), and any pending-selection update made by an executed
stop search persists. -/
theorem C3_llm_error_turn (w : World) (st : ChatState) (msg : String)
    (hpath : numericSelectionGuard st msg = false ∨
      get_stop_id_from_selection st.last_stop_search_results (pyStrip msg) = "") :
    (∀ e, w.llm (trimConversation st.conversationMaxLength
        (st.conversation ++ [userMessage msg])) = Except.error e →
      sendMessage w st msg =
        (some ("Error: " ++ e),
         { st with conversation := (trimConversation st.conversationMaxLength
             (st.conversation ++ [userMessage msg])) },
         [Event.llmCall], [])) ∧
    (∀ resp e,
      w.llm (trimConversation st.conversationMaxLength
        (st.conversation ++ [userMessage msg])) = Except.ok resp →
      resp.tool_calls ≠ [] →
      w.llm (runToolCalls w resp.tool_calls
        (trimConversation st.conversationMaxLength (st.conversation ++ [userMessage msg]) ++
          [{ role := "assistant", content := resp.content, tool_calls := resp.tool_calls }])
        st.last_stop_search_results).1 = Except.error e →
      sendMessage w st msg =
        (some ("Error: " ++ e),
         { st with
           conversation := ((runToolCalls w resp.tool_calls
             (trimConversation st.conversationMaxLength
                 (st.conversation ++ [userMessage msg]) ++
               [{ role := "assistant", content := resp.content,
                  tool_calls := resp.tool_calls }])
             st.last_stop_search_results).1),
           last_stop_search_results := ((runToolCalls w resp.tool_calls
             (trimConversation st.conversationMaxLength
                 (st.conversation ++ [userMessage msg]) ++
               [{ role := "assistant", content := resp.content,
                  tool_calls := resp.tool_calls }])
             st.last_stop_search_results).2.1) },
         Event.llmCall :: (runToolCalls w resp.tool_calls
           (trimConversation st.conversationMaxLength
               (st.conversation ++ [userMessage msg]) ++
             [{ role := "assistant", content := resp.content,
                tool_calls := resp.tool_calls }])
           st.last_stop_search_results).2.2.1 ++ [Event.llmCall],
         (runToolCalls w resp.tool_calls
           (trimConversation st.conversationMaxLength
               (st.conversation ++ [userMessage msg]) ++
             [{ role := "assistant", content := resp.content,
                tool_calls := resp.tool_calls }])
           st.last_stop_search_results).2.2.2) ∧
      ∃ tail, (runToolCalls w resp.tool_calls
          (trimConversation st.conversationMaxLength (st.conversation ++ [userMessage msg]) ++
            [{ role := "assistant", content := resp.content, tool_calls := resp.tool_calls }])
          st.last_stop_search_results).1 =
        trimConversation st.conversationMaxLength (st.conversation ++ [userMessage msg]) ++
          ({ role := "assistant", content := resp.content,
             tool_calls := resp.tool_calls } :: tail)) := by
  have hmodel : sendMessage w st msg = sendModelPath w st msg := by
    rcases hpath with h | h
    · exact sendMessage_eq_model_of_guard_false w h
    · exact sendMessage_eq_model_of_empty_id w h
  constructor
  · intro e herr
    rw [hmodel]
    simp only [sendModelPath, herr]
  · intro resp e h1 hne h2
    have hemp : resp.tool_calls.isEmpty = false := (isEmpty_false_iff _).mpr hne
    constructor
    · rw [hmodel]
      simp only [sendModelPath, h1, hemp, Bool.false_eq_true, if_false, h2]
    · obtain ⟨tail, htail⟩ := runToolCalls_conv_ext w resp.tool_calls
        (trimConversation st.conversationMaxLength (st.conversation ++ [userMessage msg]) ++
          [{ role := "assistant", content := resp.content, tool_calls := resp.tool_calls }])
        st.last_stop_search_results
      exact ⟨tail, by rw [htail, List.append_assoc]; rfl⟩

/-- A fresh session (system message only, no pending selection). -/
def c3State : ChatState := { conversation := [demoSys] }

/-- A world whose first completion requests the clock tool and whose follow-up
completion raises. -/
def worldToolFail : World :=
  { llm := fun conv =>
      if conv.length ≤ 2 then
        Except.ok { content := none, tool_calls := [{ id := "c1", fn := "get_current_time" }] }
      else
        Except.error "rate limit",
    net := netDemo,
    clock := { hms := "12:00:00", date := "2025-01-09", weekday := "Thursday" } }

/-- Claim C3, counterexample to the claim as stated: after the failed turn the
reply is the error string but the log differs from the pre-turn log — the user
message of the failed turn was left appended. -/
theorem C3_counterexample :
    replyOf (sendMessage worldDown c3State "hello") = some "Error: connection refused" ∧
    (stateOf (sendMessage worldDown c3State "hello")).conversation ≠ c3State.conversation := by
  refine ⟨by decide, by decide⟩

/-- Claim C3, witness: both failure points evaluated on fresh sessions — the
first completion raising (`worldDown`), and the follow-up completion raising
after a clock tool call (`worldToolFail`). -/
theorem C3_witness :
    (sendMessage worldDown c3State "hello" =
      (some ("Error: " ++ "connection refused"),
       { c3State with conversation := (trimConversation c3State.conversationMaxLength
           (c3State.conversation ++ [userMessage "hello"])) },
       [Event.llmCall], [])) ∧
    replyOf (sendMessage worldToolFail c3State "hi") = some ("Error: " ++ "rate limit") :=
  ⟨(C3_llm_error_turn worldDown c3State "hello" (Or.inl (by decide))).1
      "connection refused" rfl,
   by
    rw [((C3_llm_error_turn worldToolFail c3State "hi" (Or.inl (by decide))).2
      { content := none, tool_calls := [{ id := "c1", fn := "get_current_time" }] }
      "rate limit" rfl (by decide) rfl).1]
    rfl⟩

/-- Claim C10 (corrected): a turn that fails the numeric guard never clears a
non-empty pending selection — it changes it only when a stop-search tool result
with at least one match is formatted, and then to that non-empty list; and a
later in-range integer resolves without an LLM call and clears the selection,
provided the selected candidate carries a non-empty `gtfsId` (without one the
turn goes to the model path, see the counterexample). -/
theorem C10_pending_frame (w : World) (st : ChatState) (msg : String) :
    (numericSelectionGuard st msg = false →
      ((∀ nm, Event.toolStops nm ∉ eventsOf (sendMessage w st msg)) →
        (stateOf (sendMessage w st msg)).last_stop_search_results =
          st.last_stop_search_results) ∧
      (st.last_stop_search_results ≠ [] →
        (stateOf (sendMessage w st msg)).last_stop_search_results ≠ [])) ∧
    (numericSelectionGuard st msg = true →
      get_stop_id_from_selection st.last_stop_search_results (pyStrip msg) ≠ "" →
      Event.llmCall ∉ eventsOf (sendMessage w st msg) ∧
      (stateOf (sendMessage w st msg)).last_stop_search_results = []) := by
  constructor
  · intro hg
    rw [sendMessage_eq_model_of_guard_false w hg]
    constructor
    · intro h
      exact sendModelPath_pending_of_no_stops w st msg h
    · intro h
      exact sendModelPath_pending_ne w st msg h
  · intro hg hid
    have hpath : sendMessage w st msg = sendSelectionPath w st msg := by
      unfold sendMessage
      rw [if_pos hg, if_pos hid]
    rw [hpath]
    constructor
    · simp [sendSelectionPath, eventsOf]
    · rfl

/-- Claim C10, counterexample to the claim as stated: the pending candidate
lacks a `gtfsId`, so the later in-range integer `"01"` does not resolve
against it — the turn consults the LLM and the pending list survives. -/
theorem C10_counterexample :
    numericSelectionGuard ghostState "01" = true ∧
    Event.llmCall ∈ eventsOf (sendMessage worldDown ghostState "01") ∧
    (stateOf (sendMessage worldDown ghostState "01")).last_stop_search_results ≠ [] := by
  refine ⟨by decide, by decide, by decide⟩

/-- Claim C10, witness: a non-numeric turn without any stop search leaves the
two-candidate pending selection exactly in place. -/
theorem C10_witness :
    (stateOf (sendMessage worldDown goodState "hello")).last_stop_search_results =
      goodState.last_stop_search_results :=
  ((C10_pending_frame worldDown goodState "hello").1 (by decide)).1
    (by
      intro nm
      show Event.toolStops nm ∉ [Event.llmCall]
      simp)

end Vibebus
